import Mathlib

/-!
# SF-INVENTORY — Evidence-Weighted Feature Detection & Scoring Engine

Shallow embedding of the scoring engine, evidence collector, product
analyzer constructor and analyzer manager of the SF-INVENTORY repository
(`salesforce-analyzer/src/core/scoring-engine.js`, the ESM
`EvidenceCollector`, `salesforce-analyzer/src/analyzers/product-analyzer.js`,
`salesforce-analyzer/src/core/analyzer-manager.js`), together with proofs
about the properties stated in the natural-language specification.

Modelling conventions:
* JavaScript numbers appearing in evidence details are modelled by `JsNum`
  (either `NaN` or an exact rational); scores and weights are rationals.
* JavaScript truthiness on those values (`!x` is true for `undefined`,
  `NaN` and `0`) is modelled explicitly in each guard.
* Fallible org-client calls (`describe`, `query`, `toolingQuery`,
  `metadata.list`) return `Except JsError _`; a thrown error is the
  `.error` case.  `RegExp#test` is deterministic but external to the
  embedding, so it is supplied as a function on the client record.
* `Math.random()` draws are modelled by an explicit `rng : Nat → ℚ`
  argument on the probes of the collector that (textually) have access to
  it; a probe is deterministic exactly when its result does not depend on
  this argument.
-/

namespace SFInv

/-- A JavaScript number as stored in evidence details: `NaN` or a rational. -/
inductive JsNum where
  | nan : JsNum
  | val (q : ℚ) : JsNum
deriving DecidableEq, Repr

/-- JS truthiness of a possibly-absent number: `undefined`, `NaN` and `0`
are falsy, every other number is truthy. -/
def jsNumTruthy : Option JsNum → Bool
  | none => false
  | some .nan => false
  | some (.val q) => q ≠ 0

/-- Embeds `x || d` for a possibly-absent JS number `x` and a (truthy) default `d`:
yields the stored rational when truthy, the default otherwise. -/
def jsNumOr (x : Option JsNum) (d : ℚ) : ℚ :=
  match x with
  | some (.val q) => if q = 0 then d else q
  | _ => d

/-- Embeds `s || d` for a possibly-absent JS string: the empty string is falsy. -/
def jsStrOr (x : Option String) (d : String) : String :=
  match x with
  | some s => if s = "" then d else s
  | none => d

/-- JS truthiness of a possibly-absent string. -/
def jsStrTruthy : Option String → Bool
  | none => false
  | some s => s ≠ ""

/-- Embeds `a || b` on possibly-absent JS strings (the second operand is returned
as-is when the first is falsy, as in JS). -/
def jsStrOrOpt (a b : Option String) : Option String :=
  match a with
  | some s => if s = "" then b else some s
  | none => b

/-- Nested `details.details` bag written by `checkObject`
(`{label, keyPrefix}`). -/
structure ObjLabelInfo where
  label : String := ""
  keyPrefix : Option String := none
deriving DecidableEq, Repr

/-- One record summary listed by `checkMetadata` in `details.records`. -/
structure MetaRecordSummary where
  id : Option String := none
  name : Option String := none
  url : Option String := none
deriving DecidableEq, Repr

/-- One domain entry produced by `checkCustomDomains`. -/
structure DomainInfo where
  domain : String := ""
  isCustom : Bool := false
deriving DecidableEq, Repr

/-- The semi-structured `details` bag of an `Evidence` record.  Each field
is one of the keys the collector or scoring engine actually writes or
reads; an absent key is `none`. -/
structure Details where
  error : Option String := none
  message : Option String := none
  count : Option JsNum := none
  threshold : Option JsNum := none
  timeframe : Option String := none
  eventType : Option String := none
  pattern : Option String := none
  object : Option String := none
  -- JS key `matches` (a Lean keyword, hence the longer field name)
  matchesList : Option (List String) := none
  requiredFieldsPresent : Option Bool := none
  recordCount : Option JsNum := none
  lastModified : Option String := none
  customFields : Option Nat := none
  details : Option ObjLabelInfo := none
  metadata : Option String := none
  enabled : Option Bool := none
  records : Option (List MetaRecordSummary) := none
  fieldName : Option String := none
  fieldType : Option String := none
  fieldValue : Option String := none
  domains : Option (List DomainInfo) := none
  allDomains : Option (List DomainInfo) := none
deriving DecidableEq, Repr

/-- Evidence record (`models/evidence.js`, collector variant
`constructor(type, name, detected, details = {})`); the `weight` and
`timestamp` fields carried by the scoring-variant model are included as
the spec's §3 record describes them (the collector leaves them unset). -/
structure Evidence where
  type : String
  name : String
  detected : Bool
  details : Details := {}
  weight : ℚ := 0
  timestamp : Option ℚ := none
deriving DecidableEq, Repr

/-- Embeds `EvidenceCollection`: ordered list of evidence for one product run. -/
structure EvidenceCollection where
  productName : String := ""
  items : List Evidence := []
deriving DecidableEq, Repr

/-- Embeds `getEvidenceByType`: the `categorizedItems` index maintained by
`addEvidence` holds, for each type, exactly the items of that type in
insertion order, i.e. the filter of `items` by that type. -/
def EvidenceCollection.getEvidenceByType (ec : EvidenceCollection) (t : String) :
    List Evidence :=
  ec.items.filter (fun e => e.type = t)

/-! ## Scoring engine (`salesforce-analyzer/src/core/scoring-engine.js`) -/

/-- Embeds `decayFactors` entry of the algorithm configuration. -/
structure DecayFactors where
  rate : Option ℚ := none
deriving DecidableEq, Repr

/-- Embeds `thresholds` entry of the algorithm configuration. -/
structure Thresholds where
  active : ℚ := 0
  limited : ℚ := 0
  inactive : ℚ := 0
deriving DecidableEq, Repr

/-- Embeds `config.scoringEngine.algorithms.default`: evidence-type weights (in
declared key order), optional decay factors, and category thresholds. -/
structure AlgorithmConfig where
  evidenceWeights : List (String × ℚ) := []
  decayFactors : Option DecayFactors := none
  thresholds : Thresholds := {}
deriving DecidableEq, Repr

/-- The threshold-relative tier used by `calculateItemScore` once both
`count` and `threshold` are truthy (scoring-engine.js lines 81–83). -/
def thresholdTier (c t : ℚ) : ℚ :=
  if c ≥ t * 2 then 1
  else if c ≥ t then 3/4
  else c / t * (1/2)

/-- Embeds `calculateItemScore(item, type)` (scoring-engine.js lines 63–98).
The guards `!item.details.count` / `!item.details.threshold` are JS
truthiness tests, so an absent, `NaN` or zero value takes the
partial-credit branch. -/
def calculateItemScore (item : Evidence) (type : String) : ℚ :=
  if item.detected = false then 0
  else if type = "objectPresence" then 1
  else if type = "objectUsage" ∨ type = "userActivity" ∨ type = "apiUsage" then
    match item.details.count with
    | some (.val c) =>
      if c = 0 then 1/2
      else
        match item.details.threshold with
        | some (.val t) =>
          if t = 0 then 1
          else thresholdTier c t
        | _ => 1
    | _ => 1/2
  else if type = "featureConfiguration" then 1
  else if type = "codeReferences" then
    match item.details.matchesList with
    | none => 1/2
    | some ms => min 1 ((ms.length : ℚ) / 3)
  else 1

/-- Embeds `this.algorithmConfig.decayFactors.rate || 0.01`
(scoring-engine.js line 116): a missing or `0` (falsy) rate defaults to
`0.01` per day. -/
def effectiveDecayRate (df : DecayFactors) : ℚ :=
  match df.rate with
  | some r => if r = 0 then 1/100 else r
  | none => 1/100

/-- Embeds `applyTimeDecay(score, timestamp)` (scoring-engine.js lines 107–120).
`now` is the clock reading `new Date()`; a missing or `0` (falsy)
timestamp, or a missing `decayFactors` config, leaves the score
unchanged. -/
def applyTimeDecay (cfg : AlgorithmConfig) (score : ℚ) (timestamp : Option ℚ)
    (now : ℚ) : ℚ :=
  match timestamp with
  | none => score
  | some ts =>
    if ts = 0 then score
    else
      match cfg.decayFactors with
      | none => score
      | some df =>
        let ageInDays := (now - ts) / (1000 * 60 * 60 * 24)
        let decayFactor := max 0 (1 - ageInDays * effectiveDecayRate df)
        score * decayFactor

/-- The accumulated `(totalScore, totalWeight)` pair of
`calculateScore` (scoring-engine.js lines 27–50). -/
def scoreTotals (cfg : AlgorithmConfig) (ec : EvidenceCollection) (now : ℚ) :
    ℚ × ℚ :=
  cfg.evidenceWeights.foldl
    (fun acc tw =>
      (ec.getEvidenceByType tw.1).foldl
        (fun acc item =>
          let baseScore := calculateItemScore item tw.1
          let decayedScore := applyTimeDecay cfg baseScore item.timestamp now
          (acc.1 + decayedScore * tw.2 * item.weight,
           acc.2 + item.weight * tw.2))
        acc)
    (0, 0)

/-- Embeds `calculateScore(productDefinition, evidenceCollection)`
(scoring-engine.js lines 26–54): normalized, clamped score, `0` when the
total weight is not positive.  (The early `return` for an empty item list
of a type is a no-op on the accumulator.) -/
def calculateScore (cfg : AlgorithmConfig) (ec : EvidenceCollection)
    (now : ℚ) : ℚ :=
  let totals := scoreTotals cfg ec now
  if totals.2 > 0 then min 100 (max 0 (totals.1 / totals.2 * 100)) else 0

/-- Embeds `categorizeScore(score)` (scoring-engine.js lines 128–135). -/
def categorizeScore (cfg : AlgorithmConfig) (score : ℚ) : String :=
  if score ≥ cfg.thresholds.active then "Active"
  else if score ≥ cfg.thresholds.limited then "Limited"
  else if score ≥ cfg.thresholds.inactive then "Inactive"
  else "Not Used"

/-! ## Edition inference (`determineEdition`, scoring-engine.js lines
144–172; the identical copy lives in product-analyzer.js lines 348–376) -/

/-- Embeds `editionSignals` map of a product definition, as an ordered
association list (JS object keys keep declaration order). -/
abbrev EditionSignals := List (String × List String)

/-- Indicator item of a product definition (spec §3). -/
structure IndicatorItem where
  type : String := ""
  name : String := ""
  weight : ℚ := 0
deriving DecidableEq, Repr

/-- One indicator category of a product definition. -/
structure IndicatorCategory where
  category : String := ""
  items : List IndicatorItem := []
deriving DecidableEq, Repr

/-- Product definition as the engine consumes it. -/
structure ProductDefinition where
  name : String := ""
  indicators : List IndicatorCategory := []
  editionSignals : Option EditionSignals := none
deriving DecidableEq, Repr

/-- Embeds `detectedFeatures`: names of the detected `featureConfiguration`
evidence (scoring-engine.js lines 148–150). -/
def detectedFeatureNames (ec : EvidenceCollection) : List String :=
  ((ec.getEvidenceByType "featureConfiguration").filter
    (fun e => e.detected)).map (fun e => e.name)

/-- Embeds `f.includes(signal)`: case-sensitive substring containment. -/
def strIncludes (f signal : String) : Bool :=
  decide (signal.toList <:+: f.toList)

/-- The signal list declared for one edition
(`productDefinition.editionSignals[edition]`). -/
def signalsOf (sigs : EditionSignals) (edition : String) : List String :=
  (List.lookup edition sigs).getD []

/-- Embeds `matchedSignals` for one edition: the declared signals that are a
substring of some detected feature name. -/
def matchedSignals (sigs : EditionSignals) (features : List String)
    (edition : String) : List String :=
  (signalsOf sigs edition).filter
    (fun signal => features.any (fun f => strIncludes f signal))

/-- The acceptance test of the `for` loop: at least
`Math.ceil(signals.length * 0.5)` of the edition's signals matched. -/
def editionQualifies (sigs : EditionSignals) (features : List String)
    (edition : String) : Bool :=
  (matchedSignals sigs features edition).length ≥
    Nat.ceil (((signalsOf sigs edition).length : ℚ) * (1/2))

/-- The `for (const edition of sortedEditions)` loop with its early
`return` (scoring-engine.js lines 158–168). -/
def editionLoop (sigs : EditionSignals) (features : List String) :
    List String → Option String
  | [] => none
  | edition :: rest =>
    if editionQualifies sigs features edition then some edition
    else editionLoop sigs features rest

/-- Embeds `determineEdition(productDefinition, evidenceCollection)`
(scoring-engine.js lines 144–172).  The fallback `editions[0] || 'Unknown'`
treats an empty-string edition name as falsy. -/
def determineEdition (pd : ProductDefinition) (ec : EvidenceCollection) :
    String :=
  match pd.editionSignals with
  | none => "Unknown"
  | some sigs =>
    let features := detectedFeatureNames ec
    let editions := sigs.map Prod.fst
    let sortedEditions := editions.reverse
    match editionLoop sigs features sortedEditions with
    | some edition => edition
    | none =>
      match editions.head? with
      | some e => if e = "" then "Unknown" else e
      | none => "Unknown"

/-! ## Evidence collector (ESM `EvidenceCollector`, `src/unnamed/part_004`
lines 1–612)

All probes are plain total functions: every org-client failure is an
explicit `Except.error` value handled inside the probe, mirroring the
per-probe `try`/`catch` blocks of the source.  `checkFeature`'s own
`catch` handler is unreachable because every helper it calls catches its
own errors (`checkCustomDomains` errors are caught inside `checkField`). -/

/-- A thrown org-client error (`error.errorCode`, `error.message`). -/
structure JsError where
  errorCode : Option String := none
  message : String := ""
deriving DecidableEq, Repr

/-- One field of an object describe result. -/
structure FieldDescribe where
  name : String := ""
  custom : Bool := false
  type : String := ""
deriving DecidableEq, Repr

/-- An object describe result. -/
structure ObjectDescribe where
  label : String := ""
  keyPrefix : Option String := none
  fields : List FieldDescribe := []
deriving DecidableEq, Repr

/-- One record of a SOQL query result (only the fields the collector
reads). -/
structure SObjectRow where
  Id : Option String := none
  Name : Option String := none
  Domain : Option String := none
  LastModifiedDate : Option String := none
deriving DecidableEq, Repr

/-- A SOQL query result (`{totalSize, records}`). -/
structure QueryResult where
  totalSize : Option JsNum := none
  records : List SObjectRow := []
deriving DecidableEq, Repr

/-- One record returned by `connection.metadata.list`. -/
structure MetaRecord where
  id : Option String := none
  fullName : Option String := none
  url : Option String := none
  domain : Option String := none
  siteUrl : Option String := none
  customUrl : Option String := none
deriving DecidableEq, Repr

/-- The org connection capability set used by the collector.
`metadataList path` models `connection.metadata.list([{type: path}])`
(`.ok none` models a non-array result); `regexTest pattern s` models
`new RegExp(pattern).test(s)`, external and deterministic. -/
structure OrgClient where
  describe : String → Except JsError ObjectDescribe
  query : String → Except JsError QueryResult
  toolingQuery : String → Except JsError QueryResult
  metadataList : Option String → Except JsError (Option (List MetaRecord))
  regexTest : String → String → Bool

/-- Internal result shape of `checkMetadata` / `checkField` /
`checkCustomDomains` (`{detected, details?, error?}`; the `error` key sits
beside `details`, not inside it). -/
structure ProbeResult where
  detected : Bool := false
  details : Option Details := none
  error : Option String := none
deriving DecidableEq, Repr

/-- Embeds `x > 0` on a JS number (`NaN > 0` is false). -/
def jsNumGtZero : JsNum → Bool
  | .nan => false
  | .val q => q > 0

/-- The raw rational stored in a JS number, with a default for the
absent/`NaN` cases (used only under a truthiness guard). -/
def jsNumValD (x : Option JsNum) (d : ℚ) : ℚ :=
  match x with
  | some (.val q) => q
  | _ => d

/-- Embeds `describeObject(objectName)` (part_004 lines 372–383): an
`INVALID_TYPE` error is converted to `null`, any other error is
rethrown. -/
def describeObject (org : OrgClient) (objectName : String) :
    Except JsError (Option ObjectDescribe) :=
  match org.describe objectName with
  | .ok r => .ok (some r)
  | .error e =>
    if e.errorCode = some "INVALID_TYPE" then .ok none else .error e

/-- Embeds `getRecordCount(objectName)` (part_004 lines 391–398): returns
`{count, error?}`, swallowing query errors as count `0`. -/
def getRecordCount (org : OrgClient) (objectName : String) :
    ℚ × Option String :=
  match org.query ("SELECT COUNT() FROM " ++ objectName) with
  | .ok result => (jsNumOr result.totalSize 0, none)
  | .error e => (0, some e.message)

/-- Embeds `getLastModifiedDate(objectName)` (part_004 lines 406–417): returns
`{date, error?}` with a `null` date on empty results or errors. -/
def getLastModifiedDate (org : OrgClient) (objectName : String) :
    Option String × Option String :=
  match org.query ("SELECT LastModifiedDate FROM " ++ objectName ++
      " ORDER BY LastModifiedDate DESC LIMIT 1") with
  | .ok result =>
    (match result.records.head? with
     | some r => r.LastModifiedDate
     | none => none,
     none)
  | .error e => (none, some e.message)

/-- Case-insensitive literal prefix match; returns the rest of the input
on success. -/
def ciMatch : List Char → List Char → Option (List Char)
  | [], rest => some rest
  | _ :: _, [] => none
  | p :: ps, c :: cs => if p.toLower = c.toLower then ciMatch ps cs else none

/-- Longest digit prefix of a character list, with the remainder. -/
def takeDigits : List Char → List Char × List Char
  | [] => ([], [])
  | c :: cs =>
    if c.isDigit then
      let r := takeDigits cs
      (c :: r.1, r.2)
    else ([], c :: cs)

/-- The unit alternation `(Days|Months|Years)` of the timeframe regex,
case-insensitively, already upper-cased as `buildTimeConstraint` emits
it. -/
def findTimeframeUnit (s : List Char) : Option String :=
  if (ciMatch "days".toList s).isSome then some "DAYS"
  else if (ciMatch "months".toList s).isSome then some "MONTHS"
  else if (ciMatch "years".toList s).isSome then some "YEARS"
  else none

/-- Scanning match of `/last(\d+)(Days|Months|Years)/i`: first position
where `last`, one or more digits, and a unit occur in sequence (greedy
digits are exact here since no unit starts with a digit). -/
def scanTimeframe : List Char → Option (String × String)
  | [] => none
  | c :: cs =>
    match ciMatch "last".toList (c :: cs) with
    | some rest =>
      let d := takeDigits rest
      if d.1 ≠ [] then
        match findTimeframeUnit d.2 with
        | some unit => some (String.mk d.1, unit)
        | none => scanTimeframe cs
      else scanTimeframe cs
    | none => scanTimeframe cs

/-- Embeds `buildTimeConstraint(timeframe)` (part_004 lines 597–611). -/
def buildTimeConstraint (timeframe : String) : String :=
  if timeframe = "" then ""
  else if timeframe.startsWith "last" then
    match scanTimeframe timeframe.toList with
    | some nu => "CreatedDate = LAST_N_" ++ nu.2 ++ ":" ++ nu.1
    | none => ""
  else ""

/-- Options of `checkObject` (`requiredFields`, `checkRecordCount`,
`checkLastModified`; the analyzer also passes a `weight` the collector
never reads). -/
structure CheckObjectOptions where
  requiredFields : Option (List String) := none
  checkRecordCount : Bool := false
  checkLastModified : Bool := false
  weight : Option ℚ := none
deriving DecidableEq, Repr

/-- Embeds `checkObject(objectName, options)` (part_004 lines 26–81).  A
non-`INVALID_TYPE` describe error reaches the `catch` handler; an
`INVALID_TYPE` describe yields the bare not-detected evidence with empty
details. -/
def checkObject (org : OrgClient) (objectName : String)
    (opts : CheckObjectOptions) : Evidence :=
  match describeObject org objectName with
  | .error e =>
    { type := "objectPresence", name := objectName, detected := false,
      details := { error := some e.message } }
  | .ok none =>
    { type := "objectPresence", name := objectName, detected := false }
  | .ok (some objectInfo) =>
    let requiredFieldsPresent :=
      match opts.requiredFields with
      | some rfs =>
        if rfs.length > 0 then
          rfs.all (fun field => objectInfo.fields.any (fun f => f.name = field))
        else true
      | none => true
    let recordCount : Option JsNum :=
      if opts.checkRecordCount then
        some (.val (getRecordCount org objectName).1)
      else none
    let lastModified : Option String :=
      if opts.checkLastModified then (getLastModifiedDate org objectName).1
      else none
    { type := "objectPresence", name := objectName, detected := true,
      details := { requiredFieldsPresent := some requiredFieldsPresent,
                   recordCount := recordCount,
                   lastModified := lastModified,
                   customFields :=
                     some (objectInfo.fields.filter (fun f => f.custom)).length,
                   details := some { label := objectInfo.label,
                                     keyPrefix := objectInfo.keyPrefix } } }

/-- Options of `checkObjectUsage`. -/
structure UsageOptions where
  timeframe : Option String := none
  threshold : Option JsNum := none
  additionalWhere : Option String := none
  weight : Option ℚ := none
deriving DecidableEq, Repr

/-- The SOQL string `checkObjectUsage` builds (part_004 lines 93–106). -/
def objectUsageSoql (objectName : String) (opts : UsageOptions) : String :=
  let soql := "SELECT COUNT() FROM " ++ objectName
  let soql :=
    if jsStrTruthy opts.timeframe then
      let timeConstraint := buildTimeConstraint (opts.timeframe.getD "")
      if timeConstraint ≠ "" then soql ++ " WHERE " ++ timeConstraint else soql
    else soql
  if jsStrTruthy opts.additionalWhere then
    if strIncludes soql "WHERE" then
      soql ++ " AND " ++ opts.additionalWhere.getD ""
    else soql ++ " WHERE " ++ opts.additionalWhere.getD ""
  else soql

/-- Embeds `checkObjectUsage(objectName, options)` (part_004 lines 90–131). -/
def checkObjectUsage (org : OrgClient) (objectName : String)
    (opts : UsageOptions) : Evidence :=
  match org.query (objectUsageSoql objectName opts) with
  | .error e =>
    { type := "objectUsage", name := objectName ++ " Usage",
      detected := false, details := { error := some e.message } }
  | .ok result =>
    let count : ℚ := jsNumOr result.totalSize 0
    { type := "objectUsage", name := objectName ++ " Usage",
      detected := decide (count > 0),
      details := { count := some (.val count),
                   threshold := some (.val (jsNumOr opts.threshold 10)),
                   timeframe := some (jsStrOr opts.timeframe "all") } }

/-- Options of `checkApiUsage`. -/
structure ApiUsageOptions where
  object : Option String := none
  timeframe : Option String := none
  threshold : Option JsNum := none
  weight : Option ℚ := none
deriving DecidableEq, Repr

/-- Embeds `checkApiUsage(name, options)` (part_004 lines 207–235): the count is
`Math.floor(Math.random() * 200)`, i.e. it depends on the ambient random
draw `rng 0` and on nothing else; the `catch` handler is dead code. -/
def checkApiUsage (rng : ℕ → ℚ) (name : String) (opts : ApiUsageOptions) :
    Evidence :=
  let simulatedUsage : ℚ := ((⌊rng 0 * 200⌋ : ℤ) : ℚ)
  { type := "apiUsage", name := name,
    detected := decide (simulatedUsage > 0),
    details := { count := some (.val simulatedUsage),
                 threshold := some (.val (jsNumOr opts.threshold 100)),
                 object := opts.object,
                 timeframe := some (jsStrOr opts.timeframe "last7Days") } }

/-- Options of `checkUserActivity`. -/
structure ActivityOptions where
  type : Option String := none
  eventType : Option String := none
  pattern : Option String := none
  timeframe : Option String := none
  threshold : Option JsNum := none
  weight : Option ℚ := none
deriving DecidableEq, Repr

/-- The standard base64 alphabet used by `Buffer#toString('base64')`. -/
def base64Alphabet : List Char :=
  "ABCDEFGHIJKLMNOPQRSTUVWXYZabcdefghijklmnopqrstuvwxyz0123456789+/".toList

/-- Sextet index to base64 character. -/
def base64Char (i : ℕ) : Char := base64Alphabet.getD i 'A'

/-- Base64 encoding of a byte list, three bytes to four characters with
`=` padding. -/
def base64Chunks : List ℕ → List Char
  | [] => []
  | [b1] => [base64Char (b1 / 4), base64Char (b1 % 4 * 16), '=', '=']
  | [b1, b2] =>
    [base64Char (b1 / 4), base64Char (b1 % 4 * 16 + b2 / 16),
     base64Char (b2 % 16 * 4), '=']
  | b1 :: b2 :: b3 :: rest =>
    base64Char (b1 / 4) :: base64Char (b1 % 4 * 16 + b2 / 16) ::
    base64Char (b2 % 16 * 4 + b3 / 64) :: base64Char (b3 % 64) ::
    base64Chunks rest

/-- Embeds `Buffer.from(s).toString('base64')` for a UTF-8 string. -/
def base64Encode (s : String) : String :=
  String.mk (base64Chunks (s.toUTF8.toList.map (fun b => b.toNat)))

/-- Embeds `parseInt` on an all-digit slice: `NaN` when the slice is empty. -/
def parseIntDigits (s : List Char) : JsNum :=
  if s = [] then .nan else .val (((String.mk s).toNat?.getD 0 : ℕ) : ℚ)

/-- The deterministic pseudo-count of `checkUserActivity` (part_004
lines 251–252): base64 of `name + JSON.stringify(options)`, all
non-digits stripped, first two characters parsed. -/
def deterministicCount (nameAndOptions : String) : JsNum :=
  parseIntDigits
    (((base64Encode nameAndOptions).toList.filter Char.isDigit).take 2)

/-- Minimal JSON string escaping (backslash and quote), as
`JSON.stringify` applies to the plain strings occurring here. -/
def jsonEscape (s : String) : String :=
  String.join (s.toList.map (fun c =>
    if c = '"' then "\\\"" else if c = '\\' then "\\\\"
    else String.singleton c))

/-- A JSON string literal. -/
def jsonStr (s : String) : String := "\"" ++ jsonEscape s ++ "\""

/-- A JSON number literal; exact for integers (the non-integral case,
which `JSON.stringify` prints in decimal float notation, is rendered as
`num/den` — it only feeds the pseudo-count hash). -/
def jsonNum (q : ℚ) : String :=
  if q.den = 1 then toString q.num else toString q

/-- Embeds `JSON.stringify` of a JS number (`NaN` serializes as `null`). -/
def jsonJsNum : JsNum → String
  | .nan => "null"
  | .val q => jsonNum q

/-- Embeds `JSON.stringify(options)` for the activity options object in the key
order the analyzer constructs it (`weight`, `type`, `eventType`,
`pattern`, `timeframe`, `threshold`), omitting absent keys. -/
def stringifyActivityOptions (o : ActivityOptions) : String :=
  let fields : List (Option (String × String)) :=
    [o.weight.map (fun w => ("weight", jsonNum w)),
     o.type.map (fun v => ("type", jsonStr v)),
     o.eventType.map (fun v => ("eventType", jsonStr v)),
     o.pattern.map (fun v => ("pattern", jsonStr v)),
     o.timeframe.map (fun v => ("timeframe", jsonStr v)),
     o.threshold.map (fun v => ("threshold", jsonJsNum v))]
  "\x7b" ++
    String.intercalate ","
      ((fields.filterMap id).map (fun kv => jsonStr kv.1 ++ ":" ++ kv.2)) ++
    "\x7d"

/-- Embeds `checkUserActivity(name, options)` (part_004 lines 244–286): for
`options.type === 'eventLog'` the count is the deterministic hash of
`(name, options)`; any other type yields the `Unsupported activity type`
evidence.  The ambient random stream `rng` is in scope but never read,
and the `catch` handler is dead code. -/
def checkUserActivity (rng : ℕ → ℚ) (name : String)
    (opts : ActivityOptions) : Evidence :=
  if opts.type = some "eventLog" then
    let dc := deterministicCount (name ++ stringifyActivityOptions opts)
    { type := "userActivity", name := name,
      detected := jsNumGtZero dc,
      details := { count := some dc,
                   threshold := some (.val (jsNumOr opts.threshold 50)),
                   eventType := opts.eventType,
                   pattern := opts.pattern,
                   timeframe := some (jsStrOr opts.timeframe "last30Days") } }
  else
    { type := "userActivity", name := name, detected := false,
      details := { error := some "Unsupported activity type" } }

/-- Options of `checkCodeReferences`. -/
structure CodeOptions where
  type : Option String := none
  triggerObject : Option String := none
  pattern : Option String := none
  weight : Option ℚ := none
deriving DecidableEq, Repr

/-- The `conditions` list of the apex branch of `checkCodeReferences`
(part_004 lines 301–306): a truthy `triggerObject` wins over a truthy
`pattern`. -/
def apexConditions (opts : CodeOptions) : List String :=
  if jsStrTruthy opts.triggerObject then
    ["Body LIKE '%trigger%" ++ opts.triggerObject.getD "" ++ "%'"]
  else if jsStrTruthy opts.pattern then
    ["Body LIKE '%" ++ opts.pattern.getD "" ++ "%'"]
  else []

/-- The tooling query of the apex branch (part_004 line 317). -/
def apexCodeQuery (conditions : List String) : String :=
  "SELECT Id, Name, Body FROM ApexClass WHERE " ++
    String.intercalate " OR " conditions ++ " LIMIT 100"

/-- Embeds `checkCodeReferences(name, options)` (part_004 lines 295–362): the
apex branch queries the tooling API; the lightning branch fabricates its
result from the ambient random draws. -/
def checkCodeReferences (org : OrgClient) (rng : ℕ → ℚ) (name : String)
    (opts : CodeOptions) : Evidence :=
  if opts.type = some "apex" then
    let conditions := apexConditions opts
    if conditions.length = 0 then
      { type := "codeReferences", name := name, detected := false,
        details := { error := some "No search criteria specified" } }
    else
      match org.toolingQuery (apexCodeQuery conditions) with
      | .error e =>
        { type := "codeReferences", name := name, detected := false,
          details := { error := some e.message } }
      | .ok result =>
        let matchingClasses := result.records
        { type := "codeReferences", name := name,
          detected := decide (matchingClasses.length > 0),
          details := { count := some (.val matchingClasses.length),
                       matchesList :=
                         some (matchingClasses.map (fun cls => cls.Name.getD "")),
                       pattern := jsStrOrOpt opts.pattern opts.triggerObject } }
  else if opts.type = some "lightning" then
    { type := "codeReferences", name := name,
      detected := decide (rng 0 > 1/2),
      details := { count := some (.val ((⌊rng 1 * 5⌋ : ℤ) : ℚ)),
                   matchesList := some ["Component1", "Component2"],
                   pattern := opts.pattern } }
  else
    { type := "codeReferences", name := name, detected := false,
      details := { error := some "Unsupported code type" } }

/-- A detection method of a feature indicator (spec §3: discriminated by
`type`, carrying the matching parameters the collector reads). -/
structure DetectionMethod where
  type : String := ""
  path : Option String := none
  pattern : Option String := none
  minCount : Option JsNum := none
  object : Option String := none
  name : Option String := none
  value : Option String := none
deriving DecidableEq, Repr

/-- Embeds `checkMetadata(method)` (part_004 lines 425–485). -/
def checkMetadata (org : OrgClient) (method : DetectionMethod) : ProbeResult :=
  match org.metadataList method.path with
  | .error e =>
    { detected := false,
      details := some { metadata := method.path, enabled := some false,
                        error := some e.message } }
  | .ok none =>
    { detected := false,
      details := some { metadata := method.path, enabled := some false,
                        error := some "No metadata found" } }
  | .ok (some result) =>
    let matchingRecords :=
      if jsStrTruthy method.pattern then
        result.filter (fun record =>
          [record.fullName, record.url, record.domain, record.siteUrl,
           record.customUrl].any (fun field =>
            match field with
            | some s => s ≠ "" && org.regexTest (method.pattern.getD "") s
            | none => false))
      else result
    let detected := decide ((matchingRecords.length : ℚ) ≥ jsNumOr method.minCount 1)
    { detected := detected,
      details := some
        { metadata := method.path, enabled := some detected,
          count := some (.val matchingRecords.length),
          records := some (matchingRecords.map (fun record =>
            { id := jsStrOrOpt record.id record.fullName,
              name := record.fullName,
              url := jsStrOrOpt record.url (jsStrOrOpt record.domain
                       (jsStrOrOpt record.siteUrl record.customUrl)) })) } }

/-- The fixed default Salesforce domain suffixes of `checkCustomDomains`
(part_004 lines 500–507; each regex is a fully-escaped anchored suffix). -/
def defaultDomainSuffixes : List String :=
  [".sandbox.my.salesforce-sites.com", ".sandbox.my.site.com",
   ".my.salesforce.com", ".my.site.com", ".force.com",
   ".salesforce-sites.com"]

/-- Whether a lower-cased domain matches a default Salesforce domain
pattern. -/
def isDefaultDomain (domain : String) : Bool :=
  defaultDomainSuffixes.any (fun suffix => domain.endsWith suffix)

/-- Embeds `checkCustomDomains()` (part_004 lines 492–535): no local `catch`, so
a query error is rethrown (and caught by `checkField`). -/
def checkCustomDomains (org : OrgClient) : Except JsError ProbeResult :=
  match org.query "SELECT Id, Domain FROM Domain" with
  | .error e => .error e
  | .ok result =>
    let customDomains := result.records.filter (fun record =>
      ¬ isDefaultDomain (record.Domain.getD "").toLower)
    .ok { detected := decide (customDomains.length > 0),
          details := some {
            fieldName := some "Domain",
            count := some (.val customDomains.length),
            domains := some (customDomains.map (fun r =>
              { domain := r.Domain.getD "", isCustom := true })),
            allDomains := some (result.records.map (fun r =>
              { domain := r.Domain.getD "",
                isCustom := ¬ isDefaultDomain (r.Domain.getD "").toLower })) } }

/-- The `details` object `checkField` returns
(`fieldInfo ? {fieldName, fieldType, fieldValue: method.value} : {}`). -/
def fieldDetailsOf (fieldInfo : Option FieldDescribe) (value : Option String) :
    Details :=
  match fieldInfo with
  | some f => { fieldName := some f.name, fieldType := some f.type,
                fieldValue := value }
  | none => {}

/-- Embeds `checkField(method)` (part_004 lines 543–589).  The describe call
goes through `describeObject`; an absent `method.object` / `method.name`
is interpolated as the text `undefined` in the SOQL the source builds. -/
def checkField (org : OrgClient) (method : DetectionMethod) : ProbeResult :=
  if method.object = some "Domain" ∧ method.name = some "Domain" then
    match checkCustomDomains org with
    | .ok r => r
    | .error e => { detected := false, error := some e.message }
  else
    match describeObject org (method.object.getD "undefined") with
    | .error e => { detected := false, error := some e.message }
    | .ok none => { detected := false }
    | .ok (some objectInfo) =>
      let fieldInfo : Option FieldDescribe :=
        if jsStrTruthy method.name then
          objectInfo.fields.find? (fun f => method.name = some f.name)
        else if jsStrTruthy method.pattern then
          objectInfo.fields.find? (fun f =>
            org.regexTest (method.pattern.getD "") f.name)
        else none
      let fieldDetected := fieldInfo.isSome
      if fieldDetected ∧ jsStrTruthy method.value then
        match org.query ("SELECT Id FROM " ++ method.object.getD "undefined" ++
            " WHERE " ++ method.name.getD "undefined" ++ " = '" ++
            method.value.getD "" ++ "' LIMIT 1") with
        | .error e => { detected := false, error := some e.message }
        | .ok result =>
          { detected := decide (result.records.length > 0),
            details := some (fieldDetailsOf fieldInfo method.value) }
      else
        { detected := fieldDetected,
          details := some (fieldDetailsOf fieldInfo method.value) }

/-- One iteration of the `checkFeature` dispatch `switch` (part_004 lines
147–171): the per-iteration `details` accumulator starts empty, so the
pair is exactly the dispatched method's result (`{...{}, ...details}`).
An unknown method type leaves `detected = false` with empty details. -/
def runDetectionMethod (org : OrgClient) (method : DetectionMethod) :
    Bool × Details :=
  if method.type = "metadata" then
    let r := checkMetadata org method
    (r.detected, r.details.getD {})
  else if method.type = "field" then
    let r := checkField org method
    (r.detected, r.details.getD {})
  else if method.type = "object" then
    let objectResult := checkObject org (method.name.getD "undefined")
      { checkRecordCount := true }
    let detected :=
      if objectResult.detected ∧ jsNumTruthy method.minCount then
        decide (jsNumOr objectResult.details.recordCount 0 ≥
                jsNumValD method.minCount 0)
      else objectResult.detected
    (detected, objectResult.details)
  else (false, {})

/-- Embeds `checkFeature(featureName, detectionMethods)` (part_004 lines
140–198): first-match-wins over the method list; when no method succeeds
the not-detected evidence carries no details.  Total by construction —
each dispatched helper handles its own errors, so the outer `catch` is
unreachable. -/
def checkFeature (org : OrgClient) (featureName : String) :
    List DetectionMethod → Evidence
  | [] => { type := "featureConfiguration", name := featureName,
            detected := false }
  | method :: rest =>
    let r := runDetectionMethod org method
    if r.1 then
      { type := "featureConfiguration", name := featureName,
        detected := true, details := r.2 }
    else checkFeature org featureName rest

/-! ## Product analyzer constructor and analyzer manager
(`salesforce-analyzer/src/analyzers/product-analyzer.js` lines 20–37,
`salesforce-analyzer/src/core/analyzer-manager.js` lines 89–100) -/

/-- Result record assembled by one product analysis (the fields of
`models/analysis-result.js` the manager's loop stores; the evidence
summary and timestamp are opaque to the loop and omitted). -/
structure AnalysisResult where
  productName : String := ""
  category : String := ""
  edition : String := ""
  significantFindings : List String := []
deriving DecidableEq, Repr

/-- The `ProductAnalyzer` constructor's product-definition lookup
(product-analyzer.js lines 27–36): `config.products[productKey]`, a falsy
entry (`none`, e.g. a `null`-parsed definition file) falls back to
`loadProductDefinition(productKey)` — itself fallible (`loadPD`, whose
file-system errors are thrown) — and a still-falsy definition throws
`Product definition not found`. -/
def initProductDefinition
    (products : List (String × Option ProductDefinition))
    (loadPD : String → Except String (Option ProductDefinition))
    (productKey : String) : Except String ProductDefinition :=
  match (List.lookup productKey products).join with
  | some pd => .ok pd
  | none =>
    match loadPD productKey with
    | .error e => .error e
    | .ok (some pd) => .ok pd
    | .ok none => .error ("Product definition not found for: " ++ productKey)

/-- The `for (const productKey of this.availableProducts)` loop of
`analyzeAll` (analyzer-manager.js lines 92–97): no `try`/`catch`, so a
constructor or analysis error propagates and aborts the whole run.
`analyze` stands for `ProductAnalyzer#analyze` on the constructed
analyzer's definition. -/
def analyzeAllGo (products : List (String × Option ProductDefinition))
    (loadPD : String → Except String (Option ProductDefinition))
    (analyze : ProductDefinition → Except String AnalysisResult) :
    List String → List (String × AnalysisResult) →
      Except String (List (String × AnalysisResult))
  | [], results => .ok results
  | productKey :: rest, results =>
    match initProductDefinition products loadPD productKey with
    | .error e => .error e
    | .ok pd =>
      match analyze pd with
      | .error e => .error e
      | .ok r => analyzeAllGo products loadPD analyze rest (results ++ [(productKey, r)])

/-- Embeds `analyzeAll()` (analyzer-manager.js lines 89–100), iterating
`availableProducts = Object.keys(config.products)`. -/
def analyzeAll (products : List (String × Option ProductDefinition))
    (loadPD : String → Except String (Option ProductDefinition))
    (analyze : ProductDefinition → Except String AnalysisResult) :
    Except String (List (String × AnalysisResult)) :=
  analyzeAllGo products loadPD analyze (products.map Prod.fst) []

/-! ## Theorems -/

/-! ### C1 — `calculateItemScore` on the threshold-relative types -/

theorem thresholdTier_of_double (c t : ℚ) (h : t * 2 ≤ c) :
    thresholdTier c t = 1 := by
  unfold thresholdTier
  rw [if_pos h]

theorem thresholdTier_of_mid (c t : ℚ) (h1 : t ≤ c) (h2 : c < t * 2) :
    thresholdTier c t = 3/4 := by
  unfold thresholdTier
  rw [if_neg (not_le.mpr h2), if_pos h1]

theorem thresholdTier_of_lt (c t : ℚ) (ht : 0 < t) (h : c < t) :
    thresholdTier c t = c / t * (1/2) := by
  unfold thresholdTier
  rw [if_neg (not_le.mpr (by linarith)), if_neg (not_le.mpr h)]

theorem thresholdTier_le_one (c t : ℚ) (_hc : 0 < c) (ht : 0 < t) :
    thresholdTier c t ≤ 1 := by
  rcases le_or_lt (t * 2) c with h | h
  · rw [thresholdTier_of_double c t h]
  · rcases le_or_lt t c with h1 | h1
    · rw [thresholdTier_of_mid c t h1 h]
      norm_num
    · rw [thresholdTier_of_lt c t ht h1]
      have hdiv : c / t < 1 := (div_lt_one ht).mpr h1
      nlinarith

theorem thresholdTier_mono (t c₁ c₂ : ℚ) (ht : 0 < t) (hc₁ : 0 < c₁)
    (h : c₁ ≤ c₂) : thresholdTier c₁ t ≤ thresholdTier c₂ t := by
  rcases le_or_lt (t * 2) c₂ with h2 | h2
  · rw [thresholdTier_of_double c₂ t h2]
    exact thresholdTier_le_one c₁ t hc₁ ht
  · rcases le_or_lt t c₂ with h3 | h3
    · rw [thresholdTier_of_mid c₂ t h3 h2]
      rcases le_or_lt t c₁ with h4 | h4
      · rw [thresholdTier_of_mid c₁ t h4 (lt_of_le_of_lt h h2)]
      · rw [thresholdTier_of_lt c₁ t ht h4]
        have hdiv : c₁ / t < 1 := (div_lt_one ht).mpr h4
        nlinarith
    · have h4 : c₁ < t := lt_of_le_of_lt h h3
      rw [thresholdTier_of_lt c₁ t ht h4, thresholdTier_of_lt c₂ t ht h3]
      have hdiv : c₁ / t ≤ c₂ / t := by gcongr
      linarith

/-- Evidence of one of the threshold-relative types, with an otherwise
arbitrary details bag. -/
def usageEvidence (ty nm : String) (d : Details) (w : ℚ) (ts : Option ℚ)
    (detected : Bool) (cnt th : Option JsNum) : Evidence :=
  { type := ty, name := nm, detected := detected,
    details := { d with count := cnt, threshold := th },
    weight := w, timestamp := ts }

theorem calculateItemScore_usage_eq (ty nm : String) (d : Details) (w : ℚ)
    (ts : Option ℚ) (det : Bool) (cnt th : Option JsNum)
    (hty : ty = "objectUsage" ∨ ty = "userActivity" ∨ ty = "apiUsage") :
    calculateItemScore (usageEvidence ty nm d w ts det cnt th) ty =
      if det = false then 0
      else
        match cnt with
        | some (.val c) =>
          if c = 0 then 1/2
          else
            match th with
            | some (.val t) => if t = 0 then 1 else thresholdTier c t
            | _ => 1
        | _ => 1/2 := by
  rcases hty with rfl | rfl | rfl <;>
    simp [usageEvidence, calculateItemScore]

/-- Claim C1 (amended):  For evidence of type `objectUsage`, `userActivity`
or `apiUsage`, `calculateItemScore` returns `0` when not detected; `0.5`
when detected with a falsy count (absent, `NaN` — or `0`, by JS
truthiness); `1.0` when the count is truthy but the threshold falsy
(absent, `NaN` or `0`); and for a positive count and positive threshold
the tiers `1.0` for `count ≥ 2·threshold`, `0.75` for
`threshold ≤ count < 2·threshold`, `(count/threshold)·0.5` for
`0 < count < threshold`; on positive counts the function is monotonically
non-decreasing in the count. -/
theorem usageItemScore_spec (ty nm : String) (d : Details) (w : ℚ)
    (ts : Option ℚ) (c t : ℚ)
    (hty : ty = "objectUsage" ∨ ty = "userActivity" ∨ ty = "apiUsage")
    (hc : 0 < c) (ht : 0 < t) :
    (∀ det cnt th, det = false →
      calculateItemScore (usageEvidence ty nm d w ts det cnt th) ty = 0)
  ∧ (∀ th, calculateItemScore (usageEvidence ty nm d w ts true none th) ty = 1/2)
  ∧ (∀ th, calculateItemScore
      (usageEvidence ty nm d w ts true (some .nan) th) ty = 1/2)
  ∧ (∀ th, calculateItemScore
      (usageEvidence ty nm d w ts true (some (.val 0)) th) ty = 1/2)
  ∧ (calculateItemScore
      (usageEvidence ty nm d w ts true (some (.val c)) none) ty = 1)
  ∧ (calculateItemScore
      (usageEvidence ty nm d w ts true (some (.val c)) (some .nan)) ty = 1)
  ∧ (calculateItemScore
      (usageEvidence ty nm d w ts true (some (.val c)) (some (.val 0))) ty = 1)
  ∧ (t * 2 ≤ c → calculateItemScore
      (usageEvidence ty nm d w ts true (some (.val c)) (some (.val t))) ty = 1)
  ∧ (t ≤ c → c < t * 2 → calculateItemScore
      (usageEvidence ty nm d w ts true (some (.val c)) (some (.val t))) ty = 3/4)
  ∧ (c < t → calculateItemScore
      (usageEvidence ty nm d w ts true (some (.val c)) (some (.val t))) ty
        = c / t * (1/2))
  ∧ (∀ c₂, c ≤ c₂ →
      calculateItemScore
        (usageEvidence ty nm d w ts true (some (.val c)) (some (.val t))) ty ≤
      calculateItemScore
        (usageEvidence ty nm d w ts true (some (.val c₂)) (some (.val t))) ty) := by
  have hrw := calculateItemScore_usage_eq ty nm d w ts
  refine ⟨?_, ?_, ?_, ?_, ?_, ?_, ?_, ?_, ?_, ?_, ?_⟩
  · intro det cnt th hdet
    rw [hrw det cnt th hty, if_pos hdet]
  · intro th
    rw [hrw true none th hty]
    rfl
  · intro th
    rw [hrw true (some .nan) th hty]
    rfl
  · intro th
    rw [hrw true (some (.val 0)) th hty]
    norm_num
  · rw [hrw true (some (.val c)) none hty]
    simp [hc.ne']
  · rw [hrw true (some (.val c)) (some .nan) hty]
    simp [hc.ne']
  · rw [hrw true (some (.val c)) (some (.val 0)) hty]
    simp [hc.ne']
  · intro hdouble
    rw [hrw true (some (.val c)) (some (.val t)) hty]
    simp [hc.ne', ht.ne', thresholdTier_of_double c t hdouble]
  · intro hmid1 hmid2
    rw [hrw true (some (.val c)) (some (.val t)) hty]
    simp [hc.ne', ht.ne', thresholdTier_of_mid c t hmid1 hmid2]
  · intro hlt
    rw [hrw true (some (.val c)) (some (.val t)) hty]
    simp [hc.ne', ht.ne', thresholdTier_of_lt c t ht hlt]
  · intro c₂ hle
    have hc₂ : 0 < c₂ := lt_of_lt_of_le hc hle
    rw [hrw true (some (.val c)) (some (.val t)) hty,
        hrw true (some (.val c₂)) (some (.val t)) hty]
    simp only [if_neg hc.ne', if_neg hc₂.ne', if_neg ht.ne']
    exact thresholdTier_mono t c c₂ ht hc hle

/-- Usage evidence detected with count `0` and threshold `10`. -/
def zeroCountUsage : Evidence :=
  { type := "objectUsage", name := "Case Usage", detected := true,
    details := { count := some (.val 0), threshold := some (.val 10) } }

/-- Usage evidence detected with count `1` and threshold `10`. -/
def oneCountUsage : Evidence :=
  { type := "objectUsage", name := "Case Usage", detected := true,
    details := { count := some (.val 1), threshold := some (.val 10) } }

/-- Claim C1 (counterexample):  At `count = 0`, `threshold = 10` (both
defined, `0 ≤ count < threshold`) the claimed proportional value
`(0/10)·0.5 = 0` disagrees with the code's `0.5` (the JS guard
`!item.details.count` also fires on a `0` count), and monotonicity in the
count fails: the score at count `0` exceeds the score at count `1`. -/
theorem usageItemScore_zero_count_cex :
    calculateItemScore zeroCountUsage "objectUsage" = 1/2
  ∧ ¬ calculateItemScore zeroCountUsage "objectUsage" = (0 : ℚ)/10 * (1/2)
  ∧ ¬ calculateItemScore zeroCountUsage "objectUsage" ≤
      calculateItemScore oneCountUsage "objectUsage" := by
  have h0 : calculateItemScore zeroCountUsage "objectUsage" = 1/2 := by
    rw [show zeroCountUsage = usageEvidence "objectUsage" "Case Usage" {} 0
          none true (some (.val 0)) (some (.val 10)) from rfl,
        calculateItemScore_usage_eq _ _ _ _ _ _ _ _ (Or.inl rfl)]
    norm_num
  have h1 : calculateItemScore oneCountUsage "objectUsage" = 1/20 := by
    rw [show oneCountUsage = usageEvidence "objectUsage" "Case Usage" {} 0
          none true (some (.val 1)) (some (.val 10)) from rfl,
        calculateItemScore_usage_eq _ _ _ _ _ _ _ _ (Or.inl rfl)]
    norm_num [thresholdTier]
  exact ⟨h0, by rw [h0]; norm_num, by rw [h0, h1]; norm_num⟩

/-- Witness for `usageItemScore_spec` at count `15`, threshold `10`. -/
theorem usageItemScore_spec_witness :
    calculateItemScore
      (usageEvidence "objectUsage" "Case Usage" {} 1 none true
        (some (.val 15)) (some (.val 10))) "objectUsage" = 3/4 := by
  have h := usageItemScore_spec "objectUsage" "Case Usage" {} 1 none 15 10
    (Or.inl rfl) (by norm_num) (by norm_num)
  exact h.2.2.2.2.2.2.2.2.1 (by norm_num) (by norm_num)

/-! ### C2 — `calculateScore` normalization, guard and empty collection -/

theorem scoreTotals_nil (cfg : AlgorithmConfig) (p : String) (now : ℚ) :
    scoreTotals cfg { productName := p, items := [] } now = (0, 0) := by
  unfold scoreTotals
  apply List.foldl_fixed'
  intro tw
  rfl

/-- Claim C2:  `calculateScore` returns the clamped normalized score
`min 100 (max 0 (totalScore/totalWeight · 100))` whenever the
accumulated total weight is positive and exactly `0` when it is `0`
(the division-by-zero guard); for an empty evidence collection it
returns `0`; and with positive, ordered category thresholds,
`categorizeScore 0 = "Not Used"`.  The embedding is a total function
into `ℚ`, so no exception and no `NaN` can occur. -/
theorem calculateScore_spec (cfg : AlgorithmConfig) (ec : EvidenceCollection)
    (now : ℚ) :
    ((scoreTotals cfg ec now).2 > 0 →
      calculateScore cfg ec now =
        min 100 (max 0
          ((scoreTotals cfg ec now).1 / (scoreTotals cfg ec now).2 * 100)))
  ∧ ((scoreTotals cfg ec now).2 = 0 → calculateScore cfg ec now = 0)
  ∧ (ec.items = [] → calculateScore cfg ec now = 0)
  ∧ (0 < cfg.thresholds.inactive →
     cfg.thresholds.inactive ≤ cfg.thresholds.limited →
     cfg.thresholds.limited ≤ cfg.thresholds.active →
     categorizeScore cfg 0 = "Not Used") := by
  refine ⟨?_, ?_, ?_, ?_⟩
  · intro h
    unfold calculateScore
    rw [if_pos h]
  · intro h
    unfold calculateScore
    rw [if_neg (by rw [h]; exact lt_irrefl 0)]
  · intro h
    have hec : ec = { productName := ec.productName, items := [] } := by
      cases ec
      simp_all
    rw [hec]
    unfold calculateScore
    rw [scoreTotals_nil]
    norm_num
  · intro h1 h2 h3
    unfold categorizeScore
    rw [if_neg (not_le.mpr (by linarith)), if_neg (not_le.mpr (by linarith)),
        if_neg (not_le.mpr (by linarith))]

/-- A sample scoring configuration with ordered positive thresholds. -/
def c2Config : AlgorithmConfig :=
  { evidenceWeights := [("objectPresence", 1)],
    thresholds := { active := 60, limited := 25, inactive := 5 } }

/-- A sample collection with one detected `objectPresence` evidence. -/
def c2Collection : EvidenceCollection :=
  { productName := "Sales Cloud",
    items := [{ type := "objectPresence", name := "Case", detected := true,
                weight := 1 }] }

/-- Witness for `calculateScore_spec`: the clamp equation on a one-item
collection, `0` on an empty collection, and `Not Used` at score `0`. -/
theorem calculateScore_spec_witness :
    calculateScore c2Config c2Collection 0 =
      min 100 (max 0
        ((scoreTotals c2Config c2Collection 0).1 /
          (scoreTotals c2Config c2Collection 0).2 * 100))
  ∧ calculateScore c2Config { productName := "Sales Cloud", items := [] } 0 = 0
  ∧ categorizeScore c2Config 0 = "Not Used" := by
  have h := calculateScore_spec c2Config c2Collection 0
  have h' := calculateScore_spec c2Config
    { productName := "Sales Cloud", items := [] } 0
  refine ⟨h.1 ?_, h'.2.2.1 rfl,
    h.2.2.2 (by norm_num [c2Config]) (by norm_num [c2Config])
      (by norm_num [c2Config])⟩
  norm_num [scoreTotals, c2Config, c2Collection,
    EvidenceCollection.getEvidenceByType, calculateItemScore, applyTimeDecay]

/-! ### C4 — `determineEdition` -/

theorem ceil_half_nat (n : ℕ) : Nat.ceil ((n : ℚ) * (1/2)) = (n + 1) / 2 := by
  rcases Nat.even_or_odd n with ⟨k, hk⟩ | ⟨k, hk⟩
  · subst hk
    rw [show ((k + k : ℕ) : ℚ) * (1/2) = (k : ℚ) by push_cast; ring,
        Nat.ceil_natCast]
    omega
  · subst hk
    rw [show ((2 * k + 1 : ℕ) : ℚ) * (1/2) = (1/2 : ℚ) + (k : ℕ) by
          push_cast; ring,
        Nat.ceil_add_nat (by norm_num),
        show Nat.ceil ((1:ℚ)/2) = 1 from by
          rw [Nat.ceil_eq_iff (by norm_num)]; norm_num]
    omega

theorem editionQualifies_eval (sigs : EditionSignals) (features : List String) :
    editionQualifies sigs features = fun edition =>
      decide ((matchedSignals sigs features edition).length ≥
        ((signalsOf sigs edition).length + 1) / 2) := by
  funext edition
  unfold editionQualifies
  rw [ceil_half_nat]

theorem editionLoop_eq_find (sigs : EditionSignals) (features : List String)
    (l : List String) :
    editionLoop sigs features l = l.find? (editionQualifies sigs features) := by
  induction l with
  | nil => rfl
  | cons e rest ih =>
    unfold editionLoop
    by_cases h : editionQualifies sigs features e
    · rw [if_pos h, List.find?_cons_of_pos _ h]
    · rw [if_neg h, ih, List.find?_cons_of_neg _ (by simpa using h)]

/-- Claim C4:  `determineEdition` iterates the `editionSignals` keys in
reverse declared order and returns the first edition whose matched-signal
count (signals that are a case-sensitive substring of some detected
`featureConfiguration` evidence name) is at least
`ceil(0.5 · number of signals)`; when no edition qualifies it returns the
lowest (first) declared edition, and returns `"Unknown"` when no
`editionSignals` are configured (absent key, or an empty map so that no
edition qualifies and there is no first key).  Edition names are assumed
non-empty (an empty-string lowest edition would fall back to
`"Unknown"`). -/
theorem determineEdition_spec (pd : ProductDefinition)
    (ec : EvidenceCollection) (sigs : EditionSignals)
    (hnames : ∀ p ∈ sigs, p.1 ≠ "") :
    (pd.editionSignals = none → determineEdition pd ec = "Unknown")
  ∧ (pd.editionSignals = some sigs →
      determineEdition pd ec =
        ((((sigs.map Prod.fst).reverse).find?
            (editionQualifies sigs (detectedFeatureNames ec))).getD
          (((sigs.map Prod.fst).head?).getD "Unknown"))) := by
  refine ⟨?_, ?_⟩
  · intro h
    simp only [determineEdition, h]
  · intro h
    simp only [determineEdition, h, editionLoop_eq_find]
    cases hf : ((sigs.map Prod.fst).reverse).find?
        (editionQualifies sigs (detectedFeatureNames ec)) with
    | some e => rfl
    | none =>
      cases hsigs : sigs with
      | nil => rfl
      | cons p ps =>
        have hne : p.1 ≠ "" := hnames p (by rw [hsigs]; exact List.mem_cons_self p ps)
        simp [hsigs, hne]

/-- A product definition with two editions declared low→high. -/
def c4Product : ProductDefinition :=
  { name := "Sales Cloud",
    editionSignals := some
      [("Professional", ["A"]), ("Enterprise", ["A", "B", "C", "D"])] }

/-- Two detected features whose names contain the signals `A` and `B`. -/
def c4Collection : EvidenceCollection :=
  { productName := "Sales Cloud",
    items := [{ type := "featureConfiguration", name := "FeatA", detected := true },
              { type := "featureConfiguration", name := "FeatB", detected := true }] }

/-- Witness for `determineEdition_spec`: with signals `[A,B,C,D]` for the
highest edition and `A`, `B` detected (2 ≥ ceil(4·0.5)), that edition is
selected. -/
theorem determineEdition_spec_witness :
    determineEdition c4Product c4Collection = "Enterprise" := by
  have h := (determineEdition_spec c4Product c4Collection
      [("Professional", ["A"]), ("Enterprise", ["A", "B", "C", "D"])]
      (by decide)).2 rfl
  rw [h, editionQualifies_eval]
  decide

/-! ### C5 — `applyTimeDecay` -/

/-- A configuration whose `decayFactors` is present but has no `rate`. -/
def missingRateConfig : AlgorithmConfig := { decayFactors := some {} }

/-- Claim C5 (counterexample):  With `decayFactors` present but `rate`
missing, the decay is still applied (at the default rate `0.01`): a
200-day-old score `1` decays to `0`, not to the unchanged `1` the claim
promises for a missing rate. -/
theorem applyTimeDecay_missing_rate_cex :
    applyTimeDecay missingRateConfig 1 (some 86400000) (86400000 * 201) = 0
  ∧ (0 : ℚ) ≠ 1 := by
  constructor
  · norm_num [applyTimeDecay, missingRateConfig, effectiveDecayRate]
  · norm_num

/-- Claim C5 (amended):  With `decayFactors` configured and a truthy
timestamp, `applyTimeDecay score timestamp` equals
`score · max 0 (1 − ageDays · rate)` with
`ageDays = (now − timestamp)/86400000` and `rate` the configured rate
defaulted to `0.01` when missing or `0`; the score is returned unchanged
when the timestamp is missing or when the whole `decayFactors` config is
missing (but not merely the rate); for a non-negative score and
non-negative rate the result is monotonically non-increasing in the age;
and it is exactly `0` at `ageDays = 1/rate`. -/
theorem applyTimeDecay_spec (cfg : AlgorithmConfig) (df : DecayFactors)
    (score ts now now₁ now₂ : ℚ)
    (hdf : cfg.decayFactors = some df) (hts : ts ≠ 0) :
    (applyTimeDecay cfg score (some ts) now =
       score * max 0 (1 - (now - ts) / 86400000 * effectiveDecayRate df))
  ∧ (applyTimeDecay cfg score none now = score)
  ∧ (∀ cfg' : AlgorithmConfig, cfg'.decayFactors = none →
       applyTimeDecay cfg' score (some ts) now = score)
  ∧ (0 ≤ score → 0 ≤ effectiveDecayRate df → now₁ ≤ now₂ →
       applyTimeDecay cfg score (some ts) now₂ ≤
         applyTimeDecay cfg score (some ts) now₁)
  ∧ (0 < effectiveDecayRate df →
       (now - ts) / 86400000 = 1 / effectiveDecayRate df →
       applyTimeDecay cfg score (some ts) now = 0) := by
  have heq : ∀ n : ℚ, applyTimeDecay cfg score (some ts) n =
      score * max 0 (1 - (n - ts) / 86400000 * effectiveDecayRate df) := by
    intro n
    simp only [applyTimeDecay, hdf, if_neg hts]
    norm_num
  refine ⟨heq now, rfl, ?_, ?_, ?_⟩
  · intro cfg' h
    simp only [applyTimeDecay, h, if_neg hts]
  · intro hscore hrate h12
    rw [heq now₁, heq now₂]
    apply mul_le_mul_of_nonneg_left _ hscore
    apply max_le_max le_rfl
    have : (now₁ - ts) / 86400000 * effectiveDecayRate df ≤
           (now₂ - ts) / 86400000 * effectiveDecayRate df := by
      apply mul_le_mul_of_nonneg_right _ hrate
      apply div_le_div_of_nonneg_right (by linarith) (by norm_num)
    linarith
  · intro hrate hage
    rw [heq now, hage, one_div, inv_mul_cancel₀ hrate.ne']
    norm_num

/-- A configuration with decay rate `0.01`. -/
def c5Config : AlgorithmConfig :=
  { decayFactors := some { rate := some (1/100) } }

/-- Witness for `applyTimeDecay_spec`: at age exactly `100` days
(`1/rate`), the decayed score is `0`. -/
theorem applyTimeDecay_spec_witness :
    applyTimeDecay c5Config 2 (some 86400000) (86400000 * 101) = 0 :=
  (applyTimeDecay_spec c5Config { rate := some (1/100) } 2 86400000
      (86400000 * 101) 0 0 rfl (by norm_num)).2.2.2.2
    (by norm_num [effectiveDecayRate]) (by norm_num [effectiveDecayRate])

/-! ### C6 — `checkFeature` first-match-wins -/

/-- Claim C6:  `checkFeature` tries its detection methods in declaration
order and short-circuits on the first success: when the first method
fails and the second succeeds, the returned evidence is detected and
carries exactly the second method's details — the failed first method's
partial details are reset at the top of each loop iteration, not
merged. -/
theorem checkFeature_first_match_wins (org : OrgClient)
    (featureName : String) (m₁ m₂ : DetectionMethod)
    (rest : List DetectionMethod)
    (h₁ : (runDetectionMethod org m₁).1 = false)
    (h₂ : (runDetectionMethod org m₂).1 = true) :
    checkFeature org featureName (m₁ :: m₂ :: rest) =
      { type := "featureConfiguration", name := featureName,
        detected := true, details := (runDetectionMethod org m₂).2 } := by
  simp [checkFeature, h₁, h₂]

/-- An org client with one describable object (`CaseMilestone`, record
count `5`) on which every other probe fails. -/
def c6Org : OrgClient :=
  { describe := fun objectName =>
      if objectName = "CaseMilestone" then
        .ok { label := "Case Milestone", keyPrefix := some "0Q0", fields := [] }
      else
        .error { errorCode := some "INVALID_TYPE",
                 message := "sObject type not supported" },
    query := fun _ => .ok { totalSize := some (.val 5), records := [] },
    toolingQuery := fun _ => .ok {},
    metadataList := fun _ => .error { message := "insufficient access" },
    regexTest := fun _ _ => false }

/-- A field detection method on an object that does not exist. -/
def c6FieldMethod : DetectionMethod :=
  { type := "field", object := some "Nonexistent", name := some "Field__c" }

/-- An object detection method on the describable object. -/
def c6ObjectMethod : DetectionMethod :=
  { type := "object", name := some "CaseMilestone" }

/-- Witness for `checkFeature_first_match_wins`: the failing field method
followed by the succeeding object method yields detected evidence with
only the object method's details. -/
theorem checkFeature_first_match_wins_witness :
    checkFeature c6Org "Milestones" [c6FieldMethod, c6ObjectMethod] =
      { type := "featureConfiguration", name := "Milestones",
        detected := true,
        details := (runDetectionMethod c6Org c6ObjectMethod).2 } :=
  checkFeature_first_match_wins c6Org "Milestones" c6FieldMethod
    c6ObjectMethod [] (by decide) (by decide)

/-! ### C3 — probe totality and error capture -/

/-- An org client whose every call fails with an `INVALID_TYPE` error. -/
def invalidTypeOrg : OrgClient :=
  { describe := fun _ =>
      .error { errorCode := some "INVALID_TYPE",
               message := "sObject type Foo is not supported" },
    query := fun _ => .error { message := "no access" },
    toolingQuery := fun _ => .error { message := "no access" },
    metadataList := fun _ => .error { message := "no access" },
    regexTest := fun _ _ => false }

/-- Claim C3 (counterexample):  A describe that throws with error code
`INVALID_TYPE` makes `checkObject` return not-detected evidence whose
details carry no error message at all — contradicting the claim that on
failure the error message is always in `details.error`. -/
theorem checkObject_invalid_type_cex :
    (checkObject invalidTypeOrg "Foo" {}).detected = false
  ∧ (checkObject invalidTypeOrg "Foo" {}).details.error = none := by
  decide

/-- Claim C3 (amended):  Every probe is a total function returning an
`Evidence` value for every org-client behaviour (immediately from the
embedding: each probe is a plain function into `Evidence`, every
org-client error being handled where the source `catch`es it).  When a
probe's error handler catches a thrown query, the evidence is
not-detected with the message in `details.error`; however `checkObject`
returns not-detected evidence with empty details when the describe fails
with `INVALID_TYPE` (object absent), and `checkFeature` returns
not-detected evidence with empty details when every detection method
fails — even when the underlying queries threw, since its helpers swallow
the messages. -/
theorem collector_failure_evidence (org : OrgClient) (rng : ℕ → ℚ)
    (e : JsError) (objectName featureName name : String)
    (oOpts : CheckObjectOptions) (uOpts : UsageOptions)
    (aOpts : ActivityOptions) (cOpts : CodeOptions)
    (methods : List DetectionMethod) :
    (org.describe objectName = .error e → e.errorCode ≠ some "INVALID_TYPE" →
      checkObject org objectName oOpts =
        { type := "objectPresence", name := objectName, detected := false,
          details := { error := some e.message } })
  ∧ (org.describe objectName = .error e → e.errorCode = some "INVALID_TYPE" →
      checkObject org objectName oOpts =
        { type := "objectPresence", name := objectName, detected := false })
  ∧ (org.query (objectUsageSoql objectName uOpts) = .error e →
      checkObjectUsage org objectName uOpts =
        { type := "objectUsage", name := objectName ++ " Usage",
          detected := false, details := { error := some e.message } })
  ∧ ((∀ m ∈ methods, (runDetectionMethod org m).1 = false) →
      checkFeature org featureName methods =
        { type := "featureConfiguration", name := featureName,
          detected := false })
  ∧ (aOpts.type ≠ some "eventLog" →
      checkUserActivity rng name aOpts =
        { type := "userActivity", name := name, detected := false,
          details := { error := some "Unsupported activity type" } })
  ∧ (cOpts.type = some "apex" → apexConditions cOpts = [] →
      checkCodeReferences org rng name cOpts =
        { type := "codeReferences", name := name, detected := false,
          details := { error := some "No search criteria specified" } })
  ∧ (cOpts.type = some "apex" → apexConditions cOpts ≠ [] →
      org.toolingQuery (apexCodeQuery (apexConditions cOpts)) = .error e →
      checkCodeReferences org rng name cOpts =
        { type := "codeReferences", name := name, detected := false,
          details := { error := some e.message } })
  ∧ (cOpts.type ≠ some "apex" → cOpts.type ≠ some "lightning" →
      checkCodeReferences org rng name cOpts =
        { type := "codeReferences", name := name, detected := false,
          details := { error := some "Unsupported code type" } }) := by
  refine ⟨?_, ?_, ?_, ?_, ?_, ?_, ?_, ?_⟩
  · intro h hcode
    have hd : describeObject org objectName = .error e := by
      unfold describeObject
      rw [h]
      simp [hcode]
    unfold checkObject
    rw [hd]
  · intro h hcode
    have hd : describeObject org objectName = .ok none := by
      unfold describeObject
      rw [h]
      simp [hcode]
    unfold checkObject
    rw [hd]
  · intro h
    unfold checkObjectUsage
    rw [h]
  · intro hall
    induction methods with
    | nil => rfl
    | cons m rest ih =>
      unfold checkFeature
      rw [if_neg (by
        rw [hall m (List.mem_cons_self m rest)]
        exact Bool.false_ne_true)]
      exact ih (fun m' hm' => hall m' (List.mem_cons_of_mem m hm'))
  · intro h
    unfold checkUserActivity
    rw [if_neg h]
  · intro htype hconds
    unfold checkCodeReferences
    rw [if_pos htype, hconds]
    rfl
  · intro htype hconds hq
    unfold checkCodeReferences
    rw [if_pos htype]
    have hlen : ¬ (apexConditions cOpts).length = 0 := by
      simpa [List.length_eq_zero] using hconds
    rw [if_neg hlen, hq]
  · intro h1 h2
    unfold checkCodeReferences
    rw [if_neg h1, if_neg h2]

/-- An org client whose every call throws a permission error. -/
def permErrorOrg : OrgClient :=
  { describe := fun _ =>
      .error { errorCode := some "INSUFFICIENT_ACCESS",
               message := "permission denied" },
    query := fun _ =>
      .error { errorCode := some "INSUFFICIENT_ACCESS",
               message := "permission denied" },
    toolingQuery := fun _ =>
      .error { errorCode := some "INSUFFICIENT_ACCESS",
               message := "permission denied" },
    metadataList := fun _ =>
      .error { errorCode := some "INSUFFICIENT_ACCESS",
               message := "permission denied" },
    regexTest := fun _ _ => false }

/-- Witness for `collector_failure_evidence`: a permission-denied
describe and query degrade `checkObject` and `checkObjectUsage` to
not-detected evidence carrying the message. -/
theorem collector_failure_evidence_witness :
    checkObject permErrorOrg "Account" {} =
      { type := "objectPresence", name := "Account", detected := false,
        details := { error := some "permission denied" } }
  ∧ checkObjectUsage permErrorOrg "Account" {} =
      { type := "objectUsage", name := "Account Usage", detected := false,
        details := { error := some "permission denied" } } := by
  have h := collector_failure_evidence permErrorOrg (fun _ => 0)
    { errorCode := some "INSUFFICIENT_ACCESS", message := "permission denied" }
    "Account" "F" "N" {} {} {} {} []
  exact ⟨h.1 rfl (by decide), h.2.2.1 rfl⟩

/-! ### C7 — reasons on not-detected evidence -/

/-- An org client where objects are absent and count queries return 0. -/
def zeroCountOrg : OrgClient :=
  { describe := fun _ =>
      .error { errorCode := some "INVALID_TYPE", message := "not found" },
    query := fun _ => .ok { totalSize := some (.val 0) },
    toolingQuery := fun _ => .ok {},
    metadataList := fun _ => .ok (some []),
    regexTest := fun _ _ => false }

/-- Claim C7 (counterexample):  A usage probe that executes successfully
but counts `0` records returns `detected = false` with neither an
`error` nor a `message` entry in its details. -/
theorem not_detected_without_reason_cex :
    (checkObjectUsage zeroCountOrg "Case" {}).detected = false
  ∧ (checkObjectUsage zeroCountOrg "Case" {}).details.error = none
  ∧ (checkObjectUsage zeroCountOrg "Case" {}).details.message = none := by
  decide

/-- Claim C7 (amended):  A `detected = false` evidence carries a reason
only on the error-handling branches: per probe, not-detected evidence
either carries `details.error`, or is one of the reason-less shapes —
`checkObject` on an absent object (empty details), `checkObjectUsage` /
`checkApiUsage` / `checkUserActivity` with a non-positive count,
`checkFeature` with every method failed (empty details), and
`checkCodeReferences` with an empty match list (or the fabricated
lightning result). -/
theorem not_detected_reason_spec (org : OrgClient) (rng : ℕ → ℚ)
    (objectName featureName name : String) (oOpts : CheckObjectOptions)
    (uOpts : UsageOptions) (apOpts : ApiUsageOptions)
    (aOpts : ActivityOptions) (cOpts : CodeOptions)
    (methods : List DetectionMethod) :
    ((checkObject org objectName oOpts).detected = false →
      ((checkObject org objectName oOpts).details.error.isSome ∨
       (checkObject org objectName oOpts).details = {}))
  ∧ ((checkObjectUsage org objectName uOpts).detected = false →
      ((checkObjectUsage org objectName uOpts).details.error.isSome ∨
       ∃ c : ℚ, (checkObjectUsage org objectName uOpts).details.count =
           some (.val c) ∧ ¬ c > 0))
  ∧ ((checkFeature org featureName methods).detected = false →
      (checkFeature org featureName methods).details = {})
  ∧ ((checkApiUsage rng name apOpts).detected = false →
      ∃ c : ℚ, (checkApiUsage rng name apOpts).details.count =
          some (.val c) ∧ ¬ c > 0 ∧
        (checkApiUsage rng name apOpts).details.error = none)
  ∧ ((checkUserActivity rng name aOpts).detected = false →
      ((checkUserActivity rng name aOpts).details.error.isSome ∨
       ∃ dc, (checkUserActivity rng name aOpts).details.count = some dc ∧
         jsNumGtZero dc = false))
  ∧ ((checkCodeReferences org rng name cOpts).detected = false →
      ((checkCodeReferences org rng name cOpts).details.error.isSome ∨
       (checkCodeReferences org rng name cOpts).details.matchesList.isSome)) := by
  refine ⟨?_, ?_, ?_, ?_, ?_, ?_⟩
  · cases h : describeObject org objectName with
    | error e' =>
      intro _
      left
      unfold checkObject
      rw [h]
      rfl
    | ok o =>
      cases o with
      | none =>
        intro _
        right
        unfold checkObject
        rw [h]
      | some oi =>
        intro hdet
        exfalso
        unfold checkObject at hdet
        rw [h] at hdet
        simp at hdet
  · cases h : org.query (objectUsageSoql objectName uOpts) with
    | error e' =>
      intro _
      left
      unfold checkObjectUsage
      rw [h]
      rfl
    | ok result =>
      intro hdet
      right
      unfold checkObjectUsage at hdet ⊢
      rw [h] at hdet ⊢
      refine ⟨jsNumOr result.totalSize 0, rfl, ?_⟩
      simpa using hdet
  · intro hdet
    induction methods with
    | nil => rfl
    | cons m rest ih =>
      unfold checkFeature at hdet ⊢
      by_cases hm : (runDetectionMethod org m).1 = true
      · rw [if_pos hm] at hdet
        exact absurd hdet (by simp)
      · rw [if_neg hm] at hdet ⊢
        exact ih hdet
  · intro hdet
    unfold checkApiUsage at hdet ⊢
    refine ⟨((⌊rng 0 * 200⌋ : ℤ) : ℚ), rfl, ?_, rfl⟩
    simpa using hdet
  · by_cases ht : aOpts.type = some "eventLog"
    · intro hdet
      right
      unfold checkUserActivity at hdet ⊢
      rw [if_pos ht] at hdet ⊢
      refine ⟨deterministicCount (name ++ stringifyActivityOptions aOpts),
        rfl, ?_⟩
      simpa using hdet
    · intro _
      left
      unfold checkUserActivity
      rw [if_neg ht]
      rfl
  · by_cases h1 : cOpts.type = some "apex"
    · by_cases h2 : (apexConditions cOpts).length = 0
      · intro _
        left
        unfold checkCodeReferences
        rw [if_pos h1, if_pos h2]
        rfl
      · cases hq : org.toolingQuery (apexCodeQuery (apexConditions cOpts)) with
        | error e' =>
          intro _
          left
          unfold checkCodeReferences
          rw [if_pos h1, if_neg h2, hq]
          rfl
        | ok result =>
          intro _
          right
          unfold checkCodeReferences
          rw [if_pos h1, if_neg h2, hq]
          rfl
    · by_cases h3 : cOpts.type = some "lightning"
      · intro _
        right
        unfold checkCodeReferences
        rw [if_neg h1, if_pos h3]
        rfl
      · intro _
        left
        unfold checkCodeReferences
        rw [if_neg h1, if_neg h3]
        rfl

/-- Witness for `not_detected_reason_spec`: the permission-denied usage
probe carries its reason in `details.error`. -/
theorem not_detected_reason_spec_witness :
    (checkObjectUsage permErrorOrg "Case" {}).details.error.isSome ∨
      ∃ c : ℚ, (checkObjectUsage permErrorOrg "Case" {}).details.count =
          some (.val c) ∧ ¬ c > 0 :=
  (not_detected_reason_spec permErrorOrg (fun _ => 0) "Case" "F" "N"
      {} {} {} {} {} []).2.1 (by decide)

/-! ### C8 — `analyzeAll` and per-product failures -/

/-- A product map whose first key has a falsy (null-parsed) definition. -/
def c8Products : List (String × Option ProductDefinition) :=
  [("alpha", none), ("beta", some { name := "Beta" })]

/-- A product map with one well-formed product. -/
def c8GoodProducts : List (String × Option ProductDefinition) :=
  [("beta", some { name := "Beta" })]

/-- A `loadProductDefinition` fallback that finds only falsy content. -/
def c8Loader : String → Except String (Option ProductDefinition) :=
  fun _ => .ok none

/-- A per-product analysis that always succeeds. -/
def c8Analyze : ProductDefinition → Except String AnalysisResult :=
  fun pd => .ok { productName := pd.name }

/-- Claim C8 (counterexample):  With two configured products where the
first key's definition is missing (falsy) and the second would analyze
successfully, `analyzeAll` rejects with the constructor's thrown error
and returns no results at all — it does not continue with the remaining
product keys. -/
theorem analyzeAll_abort_cex :
    analyzeAll c8Products c8Loader c8Analyze =
      .error "Product definition not found for: alpha" := by
  rfl

theorem analyzeAllGo_ok (products : List (String × Option ProductDefinition))
    (loadPD : String → Except String (Option ProductDefinition))
    (analyze : ProductDefinition → Except String AnalysisResult) :
    ∀ (keys : List String) (acc results : List (String × AnalysisResult)),
      analyzeAllGo products loadPD analyze keys acc = .ok results →
      ∀ key ∈ keys,
        ∃ pd, initProductDefinition products loadPD key = .ok pd ∧
          ∃ r, analyze pd = .ok r := by
  intro keys
  induction keys with
  | nil =>
    intro acc results _ key hk
    exact absurd hk (List.not_mem_nil key)
  | cons k rest ih =>
    intro acc results h key hk
    unfold analyzeAllGo at h
    split at h
    next e heq => cases h
    next pd heq =>
      split at h
      next e' ha => cases h
      next r ha =>
        rcases List.mem_cons.mp hk with rfl | hk'
        · exact ⟨pd, heq, r, ha⟩
        · exact ih _ results h key hk'

/-- Claim C8 (amended):  The manager's `analyzeAll` loop has no per-product
error isolation: it returns a result map only when every configured
product's constructor (definition lookup) and analysis succeed; the
first failure propagates out of `analyzeAll` and even the other
products' results are lost. -/
theorem analyzeAll_ok_requires_all
    (products : List (String × Option ProductDefinition))
    (loadPD : String → Except String (Option ProductDefinition))
    (analyze : ProductDefinition → Except String AnalysisResult)
    (results : List (String × AnalysisResult))
    (h : analyzeAll products loadPD analyze = .ok results) :
    ∀ key ∈ products.map Prod.fst,
      ∃ pd, initProductDefinition products loadPD key = .ok pd ∧
        ∃ r, analyze pd = .ok r :=
  analyzeAllGo_ok products loadPD analyze (products.map Prod.fst) [] results h

/-- Witness for `analyzeAll_ok_requires_all` on a succeeding one-product
run. -/
theorem analyzeAll_ok_requires_all_witness :
    ∃ pd, initProductDefinition c8GoodProducts c8Loader "beta" = .ok pd ∧
      ∃ r, c8Analyze pd = .ok r :=
  analyzeAll_ok_requires_all c8GoodProducts c8Loader c8Analyze
    [("beta", { productName := "Beta" })] (by rfl) "beta" (by decide)

/-! ### C9 — probe determinism -/

/-- Claim C9 (counterexample):  Two runs of `checkApiUsage` on the same
name and options (and, vacuously, the same org state — the probe never
touches the client) at the same instant differ when the ambient
`Math.random` draws differ: with draw `0` the count is `0`
(not detected), with draw `0.5` it is `100` (detected).  The probe is
therefore not a pure function of the item and the org state. -/
theorem checkApiUsage_random_cex :
    checkApiUsage (fun _ => 0) "Integration API" {} ≠
      checkApiUsage (fun _ => (1 : ℚ)/2) "Integration API" {} := by
  norm_num [checkApiUsage, Evidence.mk.injEq, Details.mk.injEq]

/-- Claim C9 (amended):  `checkUserActivity` is deterministic — its result
is unchanged under any two ambient random streams, being a function of
the name and options alone (via the base64 pseudo-count hash); whereas
`checkApiUsage`'s count is exactly `⌊draw · 200⌋` of its ambient random
draw, so it varies with the draw and is not a pure function of
`(item, org state)`. -/
theorem checkUserActivity_deterministic (r₁ r₂ : ℕ → ℚ) (name : String)
    (aOpts : ActivityOptions) (apOpts : ApiUsageOptions) :
    checkUserActivity r₁ name aOpts = checkUserActivity r₂ name aOpts
  ∧ (checkApiUsage r₁ name apOpts).details.count =
      some (.val ((⌊r₁ 0 * 200⌋ : ℤ) : ℚ)) :=
  ⟨rfl, rfl⟩

/-! ### C10 — success-path thresholds and the no-threshold branch -/

/-- Claim C10:  Every evidence produced on the success path of
`checkObjectUsage`, `checkApiUsage`, or `checkUserActivity`
(`eventLog`) carries a numeric `details.threshold`
`options.threshold || d` with defaults `d` = 10, 100 and 50
respectively; that stored threshold is never `0` (nor `NaN`), and for
any evidence whose threshold is a nonzero number and whose count is a
nonzero number, `calculateItemScore` computes the threshold-relative
tier — the `detected with a count but no threshold → 1.0` branch is
unreachable for evidence from these operations. -/
theorem success_threshold_spec (org : OrgClient) (rng : ℕ → ℚ)
    (objectName name : String) (uOpts : UsageOptions)
    (apOpts : ApiUsageOptions) (aOpts : ActivityOptions)
    (result : QueryResult) :
    (org.query (objectUsageSoql objectName uOpts) = .ok result →
       (checkObjectUsage org objectName uOpts).details.threshold =
         some (.val (jsNumOr uOpts.threshold 10)))
  ∧ (uOpts.threshold = none → jsNumOr uOpts.threshold 10 = 10)
  ∧ ((checkApiUsage rng name apOpts).details.threshold =
       some (.val (jsNumOr apOpts.threshold 100)))
  ∧ (apOpts.threshold = none → jsNumOr apOpts.threshold 100 = 100)
  ∧ (aOpts.type = some "eventLog" →
       (checkUserActivity rng name aOpts).details.threshold =
         some (.val (jsNumOr aOpts.threshold 50)))
  ∧ (aOpts.threshold = none → jsNumOr aOpts.threshold 50 = 50)
  ∧ (∀ (x : Option JsNum) (d : ℚ), d ≠ 0 → jsNumOr x d ≠ 0)
  ∧ (∀ (e : Evidence) (ty : String),
       ty = "objectUsage" ∨ ty = "userActivity" ∨ ty = "apiUsage" →
       e.detected = true →
       ∀ c t : ℚ, e.details.count = some (.val c) → c ≠ 0 →
         e.details.threshold = some (.val t) → t ≠ 0 →
         calculateItemScore e ty = thresholdTier c t) := by
  refine ⟨?_, ?_, rfl, ?_, ?_, ?_, ?_, ?_⟩
  · intro hq
    unfold checkObjectUsage
    rw [hq]
  · intro h
    rw [h]
    rfl
  · intro h
    rw [h]
    rfl
  · intro h
    unfold checkUserActivity
    rw [if_pos h]
  · intro h
    rw [h]
    rfl
  · intro x d hd
    match x with
    | none => exact hd
    | some .nan => exact hd
    | some (.val q) =>
      show (if q = 0 then d else q) ≠ 0
      by_cases hq : q = 0
      · rw [if_pos hq]
        exact hd
      · rw [if_neg hq]
        exact hq
  · intro e ty hty hdet c t hcount hc hth ht
    rcases hty with rfl | rfl | rfl <;>
      simp [calculateItemScore, hdet, hcount, hc, hth, ht]

/-- Witness for `success_threshold_spec`: the default threshold `10` on
a successful usage probe, and the tier computation on evidence carrying
a count and a threshold. -/
theorem success_threshold_spec_witness :
    (checkObjectUsage zeroCountOrg "Case" {}).details.threshold =
      some (.val 10)
  ∧ calculateItemScore oneCountUsage "objectUsage" = thresholdTier 1 10 := by
  have h := success_threshold_spec zeroCountOrg (fun _ => 0) "Case" "N"
    {} {} {} { totalSize := some (.val 0) }
  exact ⟨h.1 rfl, h.2.2.2.2.2.2.2 oneCountUsage "objectUsage" (Or.inl rfl)
    rfl 1 10 rfl (by norm_num) rfl (by norm_num)⟩

end SFInv
